import Mathlib

/-!
Verification of the ImageShield image-protection pipeline
(`src/server/storage.ts`) against its specification.

The TypeScript pipeline is shallowly embedded: pure helpers become Lean
functions over `ℚ` (JavaScript numbers modelled as exact rationals),
buffers of 8-bit samples become arrays of integers, the `sharp` image
library is modelled by an explicit record of the pixel operations and
metadata policy it would apply, and fallible stages are modelled by
explicit success flags together with `Except` results.
-/

namespace ImageShield

/-! ## Watermark placement (`getXPosition` / `getYPosition`) -/

/-- Embeds `getXPosition` (src/server/storage.ts:354-370).  The source
returns the numeral as a string interpolated into the SVG; we return the
numeric value itself.  The right-hand column is also the `default`
branch of the `switch`. -/
def getXPosition (position : String) (width textWidth : ℚ) : ℚ :=
  if position = "top-left" ∨ position = "middle-left" ∨ position = "bottom-left" then
    30
  else if position = "top-center" ∨ position = "middle-center" ∨ position = "bottom-center" then
    width / 2
  else
    width - textWidth - 30

/-- Embeds `getYPosition` (src/server/storage.ts:373-389).  The bottom
row is also the `default` branch of the `switch`. -/
def getYPosition (position : String) (height fontSize : ℚ) : ℚ :=
  if position = "top-left" ∨ position = "top-center" ∨ position = "top-right" then
    30 + fontSize
  else if position = "middle-left" ∨ position = "middle-center" ∨ position = "middle-right" then
    height / 2
  else
    height - 30

/-! ## Noise amplitude -/

/-- Embeds the intensity-to-amplitude conversion of
`generateAdversarialNoise` (src/server/storage.ts:87):
`(settings.intensity / 10) * 0.019 + 0.001`. -/
def noiseAmplitude (intensity : ℚ) : ℚ :=
  intensity / 10 * 0.019 + 0.001

/-! ## Data model of the pipeline -/

/-- A metadata container: the image's embedded tag mapping. -/
abbrev Tags := List (String × String)

/-- The fields of `await sharp(..).metadata()` that the pipeline reads:
container format, dimensions and the metadata (EXIF) container. -/
structure SrcMeta where
  format : String
  width : Option Nat
  height : Option Nat
  exif : Option Tags
deriving DecidableEq

/-- The watermark settings record (src/server/storage.ts:51-56). -/
structure WatermarkSettings where
  text : String
  position : String
  opacity : ℚ
  fontSize : ℚ
deriving DecidableEq

/-- The adversarial-noise settings record (src/server/storage.ts:58-62). -/
structure AdversarialSettings where
  enabled : Bool
  intensity : ℚ
  method : String
deriving DecidableEq

/-- JavaScript `a || d` on an optional number: `undefined` and `0` are
both falsy, so both select the default. -/
def jsOr (a : Option Nat) (d : Nat) : Nat :=
  match a with
  | none => d
  | some 0 => d
  | some n => n

/-- A pixel-level operation registered on the sharp pipeline.  The
embedding tracks which operations a run bakes into the encoded buffer;
the concrete noise sample buffers are modelled separately below. -/
inductive PixelOp
  | compositeSvg (svgWidth svgHeight : Nat) (x y : ℚ) (text : String) (exifNote : Bool)
  | addNoise (method : String) (width height channels : Nat) (amplitude : ℚ)
deriving DecidableEq

/-- An encoded output buffer: the container format chosen at encode time
(sharp keeps the container format of its input when no explicit format
call is made, as in the noise stage), the pixel operations baked into
the bytes, and the metadata container of the bytes.  sharp strips the
source's metadata unless `withMetadata()` was called on the pipeline. -/
structure EncodedImage where
  format : String
  ops : List PixelOp
  metadata : Option Tags
deriving DecidableEq

/-- The IFD0 tags merged by `withExifMerge`
(src/server/storage.ts:305-311). -/
def protectionTags : Tags :=
  [("Copyright", "DO NOT USE FOR AI TRAINING"),
   ("Artist", "Protected Content"),
   ("ImageDescription", "This image is protected against AI training usage")]

/-- Merge semantics of `withMetadata().withExifMerge(tags)`: existing
tags are preserved except where a merged key collides, where the merged
protection value wins. -/
def withExifMerge (existing merged : Tags) : Tags :=
  existing.filter (fun e => merged.all (fun m => decide (m.1 ≠ e.1))) ++ merged

/-- Environment of one `generateAdversarialNoise` call.  `meta` is the
(width, height, channels) triple that re-decoding the encoded buffer
reports, with `none` modelling a `metadata()` call that throws (caught
at src/server/storage.ts:122); `compositeOk` models whether the noise
composite-and-encode succeeds (its failure is caught there too). -/
structure NoiseEnv where
  meta : Option (Option Nat × Option Nat × Option Nat)
  compositeOk : Bool
deriving DecidableEq

/-- Result of the noise stage, with an execution trace recording whether
a noise buffer was synthesized and whether the intensity-to-amplitude
conversion was evaluated. -/
structure NoiseRun where
  out : EncodedImage
  synthesized : Bool
  amplitudeComputed : Bool
deriving DecidableEq

/-- The `switch (settings.method)` dispatch (src/server/storage.ts:94-106):
unknown methods fall to the gaussian default. -/
def dispatchMethod (method : String) : String :=
  if method = "gaussian" then "gaussian"
  else if method = "uniform" then "uniform"
  else if method = "perlin" then "perlin"
  else "gaussian"

/-- Embeds `generateAdversarialNoise` (src/server/storage.ts:68-127).
Every failure path of the source returns the input buffer unchanged: the
`enabled` guard (line 72), a missing dimension (line 80, where the
JavaScript `!width` test is also true for width 0), and the catch-all at
line 122.  The amplitude is computed (line 87) only after those guards.
The noise composite re-encodes without an explicit format call, so the
container format of the input buffer is preserved. -/
def generateAdversarialNoise (env : NoiseEnv) (imageBuffer : EncodedImage)
    (settings : AdversarialSettings) : NoiseRun :=
  if settings.enabled = false then
    ⟨imageBuffer, false, false⟩
  else
    match env.meta with
    | none => ⟨imageBuffer, false, false⟩
    | some (w, h, ch) =>
      if jsOr w 0 = 0 ∨ jsOr h 0 = 0 then
        ⟨imageBuffer, false, false⟩
      else
        let amplitude := noiseAmplitude settings.intensity
        let op := PixelOp.addNoise (dispatchMethod settings.method)
          (jsOr w 0) (jsOr h 0) (jsOr ch 3) amplitude
        if env.compositeOk then
          ⟨⟨imageBuffer.format, imageBuffer.ops ++ [op], imageBuffer.metadata⟩, true, true⟩
        else
          ⟨imageBuffer, true, true⟩

/-- Environment of one `processImage` run.  `renderOk` models whether
rasterising the watermark SVG composite succeeds when the pipeline is
encoded; the source has no handler around that stage, so its failure
reaches the outer catch (src/server/storage.ts:347-350).  `metaOk`
models whether the `withMetadata().withExifMerge` calls succeed; their
failure is caught at line 314 and the pre-injection pipeline is kept. -/
structure PipelineEnv where
  renderOk : Bool
  metaOk : Bool
  noise : NoiseEnv
deriving DecidableEq

/-- Output container format (src/server/storage.ts:321-322): PNG sources
stay PNG, everything else is encoded as JPEG. -/
def pipelineFormat (src : SrcMeta) : String :=
  if src.format = "png" then "png" else "jpeg"

/-- The watermark composite registered by `processImage`
(src/server/storage.ts:263-296): skipped in EXIF-only mode or for empty
text, and otherwise an SVG sized by the (defaulted) image dimensions
with the anchor position computed by `getXPosition`/`getYPosition`,
where the text width is approximated as `fontSize * text.length * 0.5`. -/
def watermarkOps (src : SrcMeta) (ws : WatermarkSettings)
    (addExifProtection exifOnlyMode : Bool) : List PixelOp :=
  let width := jsOr src.width 800
  let height := jsOr src.height 600
  if exifOnlyMode = false ∧ ws.text ≠ "" then
    [PixelOp.compositeSvg width height
      (getXPosition ws.position width (ws.fontSize * (ws.text.length : ℚ) * 0.5))
      (getYPosition ws.position height ws.fontSize)
      ws.text addExifProtection]
  else []

/-- The metadata container of the encoded buffer
(src/server/storage.ts:299-318): when EXIF protection is requested and
the metadata calls succeed, the source container is preserved and the
protection tags merged; otherwise no `withMetadata()` is in effect and
sharp strips the source metadata from the output. -/
def injectedMetadata (env : PipelineEnv) (src : SrcMeta)
    (addExifProtection : Bool) : Option Tags :=
  if addExifProtection = true ∧ env.metaOk = true then
    some (withExifMerge (src.exif.getD []) protectionTags)
  else none

/-- Embeds `processImage` (src/server/storage.ts:235-351) up to the
point where the watermarked, metadata-tagged pipeline is encoded to
`currentBuffer` (the identical `image.png().toBuffer()` /
`image.jpeg().toBuffer()` expressions of lines 330 and 336).  A failing
watermark rasterisation surfaces here: the outer catch rethrows it as
the fatal error. -/
def preNoiseStage (env : PipelineEnv) (src : SrcMeta) (ws : WatermarkSettings)
    (addExifProtection exifOnlyMode : Bool) : Except String EncodedImage :=
  if watermarkOps src ws addExifProtection exifOnlyMode ≠ [] ∧ env.renderOk = false then
    Except.error "Failed to process image"
  else
    Except.ok ⟨pipelineFormat src, watermarkOps src ws addExifProtection exifOnlyMode,
      injectedMetadata env src addExifProtection⟩

/-- Embeds `processImage` (src/server/storage.ts:235-351).  `src` is the
decoded source metadata, with `none` modelling a source whose decode
fails fatally; the outer catch at line 347 rethrows every escaped
failure as "Failed to process image".  The adversarial stage runs only
when `adversarialSettings?.enabled` is truthy (line 326). -/
def processImage (env : PipelineEnv) (src : Option SrcMeta)
    (ws : WatermarkSettings) (addExifProtection : Bool) (exifOnlyMode : Bool)
    (adversarialSettings : Option AdversarialSettings) :
    Except String EncodedImage :=
  match src with
  | none => Except.error "Failed to process image"
  | some md =>
    match preNoiseStage env md ws addExifProtection exifOnlyMode with
    | Except.error e => Except.error e
    | Except.ok currentBuffer =>
      match adversarialSettings with
      | some adv =>
        if adv.enabled then
          Except.ok (generateAdversarialNoise env.noise currentBuffer adv).out
        else
          Except.ok currentBuffer
      | none => Except.ok currentBuffer

/-! ## Noise sample buffers -/

/-- JavaScript `Math.round`: round half toward positive infinity. -/
def jsRound (q : ℚ) : ℤ := ⌊q + 1 / 2⌋

/-- The sample post-processing shared by all three noise generators:
`Math.max(-128, Math.min(127, Math.round(v))) + 128`
(src/server/storage.ts:144-145, 162, 192). -/
def biasedSample (v : ℚ) : ℤ := max (-128) (min 127 (jsRound v)) + 128

/-- Reads sample `i` of a noise buffer (out-of-range reads give 0, as a
`Uint8Array` does). -/
def sampleAt (a : Array ℤ) (i : Nat) : ℤ := a.getD i 0

/-- The multi-octave value of `generatePerlinNoise`
(src/server/storage.ts:179-186) at pixel (x, y): octaves 1..4 with
`freq = octave * 0.01` and per-octave amplitude `1/octave`.  `msin` and
`mcos` stand for JavaScript's `Math.sin` and `Math.cos`. -/
def perlinValue (msin mcos : ℚ → ℚ) (x y : Nat) : ℚ :=
  ([1, 2, 3, 4] : List ℚ).foldl
    (fun noiseValue octave =>
      noiseValue + msin (x * (octave * 0.01)) * mcos (y * (octave * 0.01)) * (1 / octave))
    0

/-- Embeds `generatePerlinNoise` (src/server/storage.ts:172-198).  The
source fills a flat `Uint8Array` by looping over y, then x, then the
channel c, writing index `(y * width + x) * channels + c`, so position
`i` of the flat buffer holds the pixel `x = i / channels % width`,
`y = i / channels / width`; that inverse is the closed form used here. -/
def generatePerlinNoise (msin mcos : ℚ → ℚ) (width height channels : Nat)
    (amplitude : ℚ) : Array ℤ :=
  Array.ofFn (fun i : Fin (width * height * channels) =>
    biasedSample
      (perlinValue msin mcos (i.val / channels % width) (i.val / channels / width) *
        amplitude * 255))

/-- One Box-Muller draw (src/server/storage.ts:139-141) from two uniform
samples; `msqrt`, `mlog`, `mcos` stand for the JavaScript math functions
and `pi` for `Math.PI`. -/
def boxMuller (msqrt mlog mcos : ℚ → ℚ) (pi u1 u2 : ℚ) : ℚ :=
  msqrt (-2 * mlog u1) * mcos (2 * pi * u2)

/-- Embeds `generateGaussianNoise` (src/server/storage.ts:133-149).  The
loop draws two fresh `Math.random()` samples per buffer position, so
position `i` consumes entries `2*i` and `2*i + 1` of the random
stream `rand`. -/
def generateGaussianNoise (msqrt mlog mcos : ℚ → ℚ) (pi : ℚ) (rand : Nat → ℚ)
    (width height channels : Nat) (amplitude : ℚ) : Array ℤ :=
  Array.ofFn (fun i : Fin (width * height * channels) =>
    biasedSample
      (boxMuller msqrt mlog mcos pi (rand (2 * i.val)) (rand (2 * i.val + 1)) *
        amplitude * 255))

/-- Embeds `generateUniformNoise` (src/server/storage.ts:155-166): one
fresh `Math.random()` sample per buffer position. -/
def generateUniformNoise (rand : Nat → ℚ) (width height channels : Nat)
    (amplitude : ℚ) : Array ℤ :=
  Array.ofFn (fun i : Fin (width * height * channels) =>
    biasedSample ((rand i.val - 0.5) * 2 * amplitude * 255))

/-! ## EXIF extraction -/

/-- The three shapes of object `extractExifData` resolves with
(src/server/storage.ts:207-230): the spread metadata with EXIF parsed,
the basic fallback when no EXIF container exists, and the error fallback
built in the catch. -/
inductive ExifSnapshot
  | full (md : SrcMeta)
  | basic (md : SrcMeta)
  | failed
deriving DecidableEq

/-- The `exifParsed` field of each snapshot shape
(src/server/storage.ts:210, 221, 229). -/
def ExifSnapshot.exifParsed : ExifSnapshot → Bool
  | .full _ => true
  | _ => false

/-- Embeds `extractExifData` (src/server/storage.ts:201-232).  The
argument is the result of `sharp(imagePath).metadata()`, with `.error`
modelling a throwing call; the catch returns the fallback object instead
of rethrowing, so the returned promise always resolves. -/
def extractExifData (m : Except String SrcMeta) : Except String ExifSnapshot :=
  match m with
  | Except.ok md =>
    if md.exif.isSome then Except.ok (ExifSnapshot.full md)
    else Except.ok (ExifSnapshot.basic md)
  | Except.error _ => Except.ok ExifSnapshot.failed

/-! ## Temp-file cleanup -/

/-- One entry of the temp directory: its name and last-modified time in
milliseconds. -/
structure FsEntry where
  name : String
  mtime : ℤ
deriving DecidableEq

/-- Files older than 12 hours are deleted (src/server/storage.ts:403). -/
def expirationTime : ℤ := 12 * 60 * 60 * 1000

/-- The per-entry body of the sweep (src/server/storage.ts:407-430).
`statFail` and `delFail` inject per-entry filesystem errors; a failing
`fs.stat` is logged and the entry skipped, an entry whose age exceeds
the expiration is unlinked, and a failing `fs.unlink` is logged with the
file left in place.  Returns the entry when it survives the sweep. -/
def sweepEntry (now : ℤ) (statFail delFail : String → Bool) (e : FsEntry) :
    Option FsEntry :=
  if statFail e.name then some e
  else if now - e.mtime > expirationTime then
    if delFail e.name then some e else none
  else some e

/-- Embeds `cleanupTempFiles` (src/server/storage.ts:392-432): list the
directory (a failing `fs.readdir` is logged and the sweep abandoned,
deleting nothing), then process every entry independently.  The result
is the directory contents after the sweep. -/
def cleanupTempFiles (now : ℤ) (statFail delFail : String → Bool)
    (readdirFail : Bool) (files : List FsEntry) : List FsEntry :=
  if readdirFail then files
  else files.filterMap (sweepEntry now statFail delFail)

/-! ## Concrete inputs used by witnesses and counterexamples -/

/-- A 100 by 100 JPEG source with no metadata container. -/
def srcJpeg : SrcMeta := ⟨"jpeg", some 100, some 100, none⟩

/-- A 100 by 100 PNG source with no metadata container. -/
def srcPng : SrcMeta := ⟨"png", some 100, some 100, none⟩

/-- A JPEG source carrying a metadata container. -/
def srcWithExif : SrcMeta := ⟨"jpeg", some 100, some 100, some [("Artist", "Alice")]⟩

/-- A one-character watermark anchored bottom-right. -/
def wsX : WatermarkSettings := ⟨"X", "bottom-right", 70, 24⟩

/-- Empty watermark text: compositing disabled. -/
def wsEmpty : WatermarkSettings := ⟨"", "bottom-right", 70, 24⟩

/-- Gaussian noise protection at intensity 5. -/
def advGauss : AdversarialSettings := ⟨true, 5, "gaussian"⟩

/-- Noise protection disabled. -/
def advOff : AdversarialSettings := ⟨false, 5, "gaussian"⟩

/-- A noise-stage environment whose re-decode and composite succeed. -/
def noiseEnvOk : NoiseEnv := ⟨some (some 100, some 100, some 3), true⟩

/-- A noise-stage environment whose internal `metadata()` call throws. -/
def noiseEnvFail : NoiseEnv := ⟨none, false⟩

/-- All pipeline stages succeed. -/
def envAllOk : PipelineEnv := ⟨true, true, noiseEnvOk⟩

/-- Watermark SVG rasterisation fails; everything else succeeds. -/
def envRenderFail : PipelineEnv := ⟨false, true, noiseEnvOk⟩

/-- Rendering succeeds but the metadata-injection calls and the noise
stage both fail. -/
def envRecoverFail : PipelineEnv := ⟨true, false, noiseEnvFail⟩

/-- The encoded output of a run with no watermark, no metadata
protection and no noise, from a PNG source. -/
def outEmptyPng : EncodedImage := ⟨"png", [], none⟩

/-- The encoded output of a run with no watermark, no metadata
protection and no noise, from a JPEG source. -/
def outEmptyJpeg : EncodedImage := ⟨"jpeg", [], none⟩

end ImageShield

open ImageShield

/-- C2: for every anchor among the nine named positions and all
width, height, fontSize and textWidth values, the computed watermark
origin is exactly x = 30 for the left column, x = width/2 for the center
column, x = width - textWidth - 30 for the right column, y = 30 + fontSize
for the top row, y = height/2 for the middle row, and y = height - 30 for
the bottom row. -/
theorem watermark_anchor_table (width height fontSize textWidth : ℚ) :
    (getXPosition "top-left" width textWidth = 30 ∧
      getYPosition "top-left" height fontSize = 30 + fontSize) ∧
    (getXPosition "top-center" width textWidth = width / 2 ∧
      getYPosition "top-center" height fontSize = 30 + fontSize) ∧
    (getXPosition "top-right" width textWidth = width - textWidth - 30 ∧
      getYPosition "top-right" height fontSize = 30 + fontSize) ∧
    (getXPosition "middle-left" width textWidth = 30 ∧
      getYPosition "middle-left" height fontSize = height / 2) ∧
    (getXPosition "middle-center" width textWidth = width / 2 ∧
      getYPosition "middle-center" height fontSize = height / 2) ∧
    (getXPosition "middle-right" width textWidth = width - textWidth - 30 ∧
      getYPosition "middle-right" height fontSize = height / 2) ∧
    (getXPosition "bottom-left" width textWidth = 30 ∧
      getYPosition "bottom-left" height fontSize = height - 30) ∧
    (getXPosition "bottom-center" width textWidth = width / 2 ∧
      getYPosition "bottom-center" height fontSize = height - 30) ∧
    (getXPosition "bottom-right" width textWidth = width - textWidth - 30 ∧
      getYPosition "bottom-right" height fontSize = height - 30) := by
  refine ⟨⟨?_, ?_⟩, ⟨?_, ?_⟩, ⟨?_, ?_⟩, ⟨?_, ?_⟩, ⟨?_, ?_⟩, ⟨?_, ?_⟩,
    ⟨?_, ?_⟩, ⟨?_, ?_⟩, ⟨?_, ?_⟩⟩ <;>
    simp [getXPosition, getYPosition]

/-- C3: for every intensity in 1..10, the noise amplitude equals
intensity/10 * 0.019 + 0.001, lies in the closed interval
[0.001, 0.02], and is strictly increasing in intensity. -/
theorem noiseAmplitude_bounds_mono (i j : ℚ)
    (hi1 : 1 ≤ i) (hi10 : i ≤ 10) (hij : i < j) (hj10 : j ≤ 10) :
    noiseAmplitude i = i / 10 * 0.019 + 0.001 ∧
    0.001 ≤ noiseAmplitude i ∧ noiseAmplitude i ≤ 0.02 ∧
    noiseAmplitude i < noiseAmplitude j := by
  unfold noiseAmplitude
  refine ⟨rfl, ?_, ?_, ?_⟩ <;> nlinarith

/-- Witness for C3 at intensity 3 against 7. -/
theorem noiseAmplitude_bounds_mono_witness :
    noiseAmplitude 3 = 3 / 10 * 0.019 + 0.001 ∧
    0.001 ≤ noiseAmplitude 3 ∧ noiseAmplitude 3 ≤ 0.02 ∧
    noiseAmplitude 3 < noiseAmplitude 7 :=
  noiseAmplitude_bounds_mono 3 7 (by norm_num) (by norm_num) (by norm_num) (by norm_num)

/-- Helper: the noise stage either leaves the buffer unchanged or
appends a single noise operation; format and metadata are never
touched. -/
theorem generateAdversarialNoise_out_cases (env : NoiseEnv) (b : EncodedImage)
    (s : AdversarialSettings) :
    (generateAdversarialNoise env b s).out = b ∨
    ∃ op, (generateAdversarialNoise env b s).out =
      ⟨b.format, b.ops ++ [op], b.metadata⟩ := by
  unfold generateAdversarialNoise
  split
  · exact Or.inl rfl
  · split
    · exact Or.inl rfl
    · split
      · exact Or.inl rfl
      · split
        · exact Or.inr ⟨_, rfl⟩
        · exact Or.inl rfl

/-- Helper: a successful `preNoiseStage` result is exactly the record of
format, watermark operations and injected metadata. -/
theorem preNoiseStage_ok_inv (env : PipelineEnv) (src : SrcMeta)
    (ws : WatermarkSettings) (aep eom : Bool) (cur : EncodedImage)
    (h : preNoiseStage env src ws aep eom = Except.ok cur) :
    cur = ⟨pipelineFormat src, watermarkOps src ws aep eom,
      injectedMetadata env src aep⟩ := by
  unfold preNoiseStage at h
  split at h
  · cases h
  · injection h with h
    exact h.symm

/-- Helper: when watermark rasterisation succeeds, `preNoiseStage`
always succeeds. -/
theorem preNoiseStage_of_renderOk (env : PipelineEnv) (src : SrcMeta)
    (ws : WatermarkSettings) (aep eom : Bool) (h : env.renderOk = true) :
    preNoiseStage env src ws aep eom =
      Except.ok ⟨pipelineFormat src, watermarkOps src ws aep eom,
        injectedMetadata env src aep⟩ := by
  unfold preNoiseStage
  rw [if_neg]
  rintro ⟨-, h2⟩
  rw [h] at h2
  cases h2

/-- Helper: whatever a successful `processImage` run returns has the
source-determined container format, the injected metadata container, and
carries every watermark operation the run registered. -/
theorem processImage_ok_inv (env : PipelineEnv) (src : SrcMeta)
    (ws : WatermarkSettings) (aep eom : Bool) (adv : Option AdversarialSettings)
    (out : EncodedImage)
    (h : processImage env (some src) ws aep eom adv = Except.ok out) :
    out.format = pipelineFormat src ∧
    out.metadata = injectedMetadata env src aep ∧
    ∀ op ∈ watermarkOps src ws aep eom, op ∈ out.ops := by
  unfold processImage at h
  dsimp only at h
  cases hpre : preNoiseStage env src ws aep eom with
  | error e => rw [hpre] at h; cases h
  | ok cur =>
    rw [hpre] at h
    obtain rfl := preNoiseStage_ok_inv env src ws aep eom cur hpre
    cases adv with
    | none =>
      injection h with h
      subst h
      exact ⟨rfl, rfl, fun op hop => hop⟩
    | some a =>
      dsimp only at h
      by_cases ha : a.enabled = true
      · rw [if_pos ha] at h
        injection h with h
        subst h
        rcases generateAdversarialNoise_out_cases env.noise _ a with hc | ⟨op, hc⟩
        · rw [hc]
          exact ⟨rfl, rfl, fun op hop => hop⟩
        · rw [hc]
          exact ⟨rfl, rfl, fun op2 hop => List.mem_append_left _ hop⟩
      · rw [if_neg ha] at h
        injection h with h
        subst h
        exact ⟨rfl, rfl, fun op hop => hop⟩

/-- Helper: when the source decodes and watermark rasterisation
succeeds, `processImage` produces an encoded output whatever the
metadata and noise stages do. -/
theorem processImage_isOk_of_renderOk (env : PipelineEnv) (src : SrcMeta)
    (ws : WatermarkSettings) (aep eom : Bool) (adv : Option AdversarialSettings)
    (h : env.renderOk = true) :
    (processImage env (some src) ws aep eom adv).isOk = true := by
  unfold processImage
  dsimp only
  rw [preNoiseStage_of_renderOk env src ws aep eom h]
  cases adv with
  | none => rfl
  | some a =>
    dsimp only
    by_cases ha : a.enabled = true
    · rw [if_pos ha]
      rfl
    · rw [if_neg ha]
      rfl

/-- C1 counterexample: a run whose source bytes decode successfully but
whose watermark-SVG rasterisation fails does not fall back to the
unwatermarked image: `processImage` rejects with the fatal
"Failed to process image" error, so a watermark-rendering failure is
caller-visible even though the source decoded. -/
theorem watermark_render_failure_surfaces :
    processImage envRenderFail (some srcJpeg) wsX false false none =
      Except.error "Failed to process image" := by
  rfl

/-- C1 (amended): for every pipeline run whose source bytes decode
successfully and whose watermark rasterisation succeeds, a failure
inside the metadata-injection stage or the noise-synthesis stage never
surfaces to the caller of `processImage`: the run still produces an
encoded output whatever those stages do.  A watermark-rendering failure,
however, surfaces to the caller exactly like a fatal decode failure. -/
theorem recoverable_failures_never_surface (env : PipelineEnv) (src : SrcMeta)
    (ws : WatermarkSettings) (aep eom : Bool) (adv : Option AdversarialSettings)
    (hrender : env.renderOk = true) :
    (processImage env (some src) ws aep eom adv).isOk = true :=
  processImage_isOk_of_renderOk env src ws aep eom adv hrender

/-- Witness for C1: a run in which the metadata-injection calls throw
and the noise stage's internal decode throws still produces output. -/
theorem recoverable_failures_never_surface_witness :
    envRecoverFail.renderOk = true ∧
    (processImage envRecoverFail (some srcJpeg) wsX true false (some advGauss)).isOk = true :=
  ⟨rfl, recoverable_failures_never_surface envRecoverFail srcJpeg wsX true false
    (some advGauss) rfl⟩

/-- C4: every successful pipeline run preserves the source's format
class: a PNG (lossless-class) source is encoded as PNG and a JPEG
(lossy-class) source is encoded as JPEG, including runs with noise
enabled. -/
theorem format_class_preserved (env : PipelineEnv) (src : SrcMeta)
    (ws : WatermarkSettings) (aep eom : Bool) (adv : Option AdversarialSettings)
    (out : EncodedImage)
    (h : processImage env (some src) ws aep eom adv = Except.ok out) :
    (src.format = "png" → out.format = "png") ∧
    (src.format = "jpeg" → out.format = "jpeg") := by
  have hf := (processImage_ok_inv env src ws aep eom adv out h).1
  constructor <;> intro hsrc <;> rw [hf] <;> unfold pipelineFormat <;> rw [hsrc] <;> simp

/-- Witness for C4: a noise-enabled run from a PNG source. -/
theorem format_class_preserved_witness :
    (processImage envAllOk (some srcPng) wsEmpty false false (some advGauss) =
      Except.ok ⟨"png", [PixelOp.addNoise "gaussian" 100 100 3 (noiseAmplitude 5)], none⟩) ∧
    ((srcPng.format = "png" →
        (⟨"png", [PixelOp.addNoise "gaussian" 100 100 3 (noiseAmplitude 5)], none⟩ :
          EncodedImage).format = "png") ∧
     (srcPng.format = "jpeg" →
        (⟨"png", [PixelOp.addNoise "gaussian" 100 100 3 (noiseAmplitude 5)], none⟩ :
          EncodedImage).format = "jpeg")) :=
  ⟨rfl, format_class_preserved envAllOk srcPng wsEmpty false false (some advGauss) _ rfl⟩

/-- C5: with noise protection disabled the noise stage is skipped
entirely: `processImage` returns exactly the pre-noise-stage buffer, and
`generateAdversarialNoise` applied to any buffer with disabled settings
synthesizes no noise buffer and never computes the amplitude. -/
theorem noise_disabled_identity (env : PipelineEnv) (src : SrcMeta)
    (ws : WatermarkSettings) (aep eom : Bool) (adv : AdversarialSettings)
    (b : EncodedImage) (hdis : adv.enabled = false) :
    processImage env (some src) ws aep eom (some adv) =
      preNoiseStage env src ws aep eom ∧
    generateAdversarialNoise env.noise b adv = ⟨b, false, false⟩ := by
  constructor
  · unfold processImage
    dsimp only
    cases hpre : preNoiseStage env src ws aep eom with
    | error e => rfl
    | ok cur =>
      dsimp only
      rw [if_neg]
      rw [hdis]
      simp
  · unfold generateAdversarialNoise
    rw [if_pos hdis]

/-- Witness for C5 at a concrete disabled-noise run. -/
theorem noise_disabled_identity_witness :
    advOff.enabled = false ∧
    (processImage envAllOk (some srcJpeg) wsEmpty false false (some advOff) =
       preNoiseStage envAllOk srcJpeg wsEmpty false false ∧
     generateAdversarialNoise envAllOk.noise outEmptyJpeg advOff =
       ⟨outEmptyJpeg, false, false⟩) :=
  ⟨rfl, noise_disabled_identity envAllOk srcJpeg wsEmpty false false advOff
    outEmptyJpeg rfl⟩

/-- C6 counterexample: with metadata protection disabled, a source that
carries a metadata container is encoded with no metadata container at
all — the output is not byte-identical to the source's container, which
refutes the claim at this input. -/
theorem metadata_disabled_not_identical :
    processImage envAllOk (some srcWithExif) wsEmpty false false none =
      Except.ok outEmptyJpeg ∧
    outEmptyJpeg.metadata ≠ srcWithExif.exif := by
  constructor
  · rfl
  · decide

/-- C6 (amended): with metadata protection disabled
(`addExifProtection = false`) the output's metadata container is always
absent — sharp strips the source metadata when `withMetadata()` is not
called — so it coincides with the source's container only when the
source had none. -/
theorem metadata_disabled_output_stripped (env : PipelineEnv) (src : SrcMeta)
    (ws : WatermarkSettings) (eom : Bool) (adv : Option AdversarialSettings)
    (out : EncodedImage)
    (h : processImage env (some src) ws false eom adv = Except.ok out) :
    out.metadata = none := by
  have hm := (processImage_ok_inv env src ws false eom adv out h).2.1
  rw [hm]
  unfold injectedMetadata
  simp

/-- Witness for C6 at a concrete metadata-disabled run. -/
theorem metadata_disabled_output_stripped_witness :
    (processImage envAllOk (some srcWithExif) wsEmpty false false none =
      Except.ok outEmptyJpeg) ∧
    outEmptyJpeg.metadata = none :=
  ⟨rfl, metadata_disabled_output_stripped envAllOk srcWithExif wsEmpty false none
    outEmptyJpeg rfl⟩

/-- C10: when the decoded source metadata lacks a width and a height,
`processImage` substitutes the defaults 800 and 600: the run still
succeeds (no failure, no skipped watermark stage) and the registered
watermark composite is an 800 by 600 SVG whose anchor position is
computed from width 800 and height 600. -/
theorem missing_dimensions_use_defaults (env : PipelineEnv)
    (ws : WatermarkSettings) (fmt : String) (exifC : Option Tags) (aep : Bool)
    (adv : Option AdversarialSettings)
    (hrender : env.renderOk = true) (htext : ws.text ≠ "") :
    (processImage env (some ⟨fmt, none, none, exifC⟩) ws aep false adv).isOk = true ∧
    ∀ out, processImage env (some ⟨fmt, none, none, exifC⟩) ws aep false adv =
        Except.ok out →
      PixelOp.compositeSvg 800 600
        (getXPosition ws.position 800 (ws.fontSize * (ws.text.length : ℚ) * 0.5))
        (getYPosition ws.position 600 ws.fontSize) ws.text aep ∈ out.ops := by
  constructor
  · exact processImage_isOk_of_renderOk env _ ws aep false adv hrender
  · intro out hout
    have hmem := (processImage_ok_inv env _ ws aep false adv out hout).2.2
    apply hmem
    unfold watermarkOps
    rw [if_pos ⟨rfl, htext⟩]
    simp [jsOr]

/-- Witness for C10: a dimensionless JPEG source watermarked "X"
bottom-right lands at x = 800 - 12 - 30 and y = 600 - 30. -/
theorem missing_dimensions_use_defaults_witness :
    (envAllOk.renderOk = true ∧ wsX.text ≠ "") ∧
    ((processImage envAllOk (some ⟨"jpeg", none, none, none⟩) wsX false false none).isOk = true ∧
     ∀ out, processImage envAllOk (some ⟨"jpeg", none, none, none⟩) wsX false false none =
         Except.ok out →
       PixelOp.compositeSvg 800 600
         (getXPosition wsX.position 800 (wsX.fontSize * (wsX.text.length : ℚ) * 0.5))
         (getYPosition wsX.position 600 wsX.fontSize) wsX.text false ∈ out.ops) :=
  ⟨⟨rfl, by decide⟩,
    missing_dimensions_use_defaults envAllOk wsX "jpeg" none false none rfl (by decide)⟩

/-- Helper: an entry that survives a failure-free sweep is unexpired. -/
theorem sweepEntry_noFail_some (now : ℤ) (e e' : FsEntry)
    (h : sweepEntry now (fun _ => false) (fun _ => false) e = some e') :
    e' = e ∧ ¬now - e.mtime > expirationTime := by
  unfold sweepEntry at h
  rw [if_neg (by simp)] at h
  by_cases hexp : now - e.mtime > expirationTime
  · rw [if_pos hexp, if_neg (by simp)] at h
    cases h
  · rw [if_neg hexp] at h
    injection h with h
    exact ⟨h.symm, hexp⟩

/-- Helper: whatever errors are injected, the sweep keeps every
unexpired entry untouched. -/
theorem sweepEntry_keeps_unexpired (now : ℤ) (statFail delFail : String → Bool)
    (e : FsEntry) (hexp : ¬now - e.mtime > expirationTime) :
    sweepEntry now statFail delFail e = some e := by
  unfold sweepEntry
  by_cases hs : statFail e.name = true
  · rw [if_pos hs]
  · rw [if_neg hs, if_neg hexp]

/-- C8: running the cleanup sweep twice in succession with nothing
created or modified in between deletes nothing more on the second run
and raises nothing: the first (failure-free) run removes every expired
entry, and the second run — even with arbitrary per-entry stat or unlink
failures, or a failing directory listing — returns the directory
contents unchanged. -/
theorem cleanup_sweep_idempotent (now : ℤ) (statFail delFail : String → Bool)
    (readdirFail : Bool) (files : List FsEntry) :
    cleanupTempFiles now statFail delFail readdirFail
        (cleanupTempFiles now (fun _ => false) (fun _ => false) false files) =
      cleanupTempFiles now (fun _ => false) (fun _ => false) false files := by
  unfold cleanupTempFiles
  rw [if_neg Bool.false_ne_true]
  cases readdirFail with
  | true => rw [if_pos rfl]
  | false =>
    rw [if_neg Bool.false_ne_true]
    induction files with
    | nil => rfl
    | cons e t ih =>
      rw [List.filterMap_cons]
      cases hfirst : sweepEntry now (fun _ => false) (fun _ => false) e with
      | none => exact ih
      | some e' =>
        obtain ⟨he, hexp⟩ := sweepEntry_noFail_some now e e' hfirst
        cases he
        rw [List.filterMap_cons, sweepEntry_keeps_unexpired now statFail delFail _ hexp, ih]

/-- C9: `extractExifData` always resolves with a snapshot object and
never rejects: for every input its result is a success, and when the
underlying metadata read fails it resolves with the fallback object,
whose `exifParsed` field is false. -/
theorem extractExifData_never_rejects (m : Except String SrcMeta) :
    (extractExifData m).isOk = true ∧
    (m.isOk = false →
      extractExifData m = Except.ok ExifSnapshot.failed ∧
      ExifSnapshot.failed.exifParsed = false) := by
  cases m with
  | ok md =>
    refine ⟨?_, fun h => by cases h⟩
    unfold extractExifData
    dsimp only
    by_cases h : md.exif.isSome = true
    · rw [if_pos h]
      rfl
    · rw [if_neg h]
      rfl
  | error e => exact ⟨rfl, fun _ => ⟨rfl, rfl⟩⟩

/-- Helper: reading an in-range position of an `Array.ofFn` buffer. -/
theorem sampleAt_ofFn (n : Nat) (f : Fin n → ℤ) (i : Nat) (h : i < n) :
    sampleAt (Array.ofFn f) i = f ⟨i, h⟩ := by
  unfold sampleAt
  rw [Array.getD]
  split
  · show (Array.ofFn f)[i] = f ⟨i, h⟩
    rw [Array.getElem_ofFn]
  · rename_i h2
    exact absurd (by simpa using h) h2

/-- Helper: the flat-buffer index `(y * width + x) * channels + c` that
the noise loops write is in range and decodes back to the pixel
coordinates (x, y). -/
theorem pixel_index_inv (width height channels x y c : Nat)
    (hx : x < width) (hy : y < height) (hc : c < channels) :
    ((y * width + x) * channels + c) / channels % width = x ∧
    ((y * width + x) * channels + c) / channels / width = y ∧
    (y * width + x) * channels + c < width * height * channels := by
  have hch : 0 < channels := Nat.lt_of_le_of_lt (Nat.zero_le c) hc
  have hw : 0 < width := Nat.lt_of_le_of_lt (Nat.zero_le x) hx
  have hdiv : ((y * width + x) * channels + c) / channels = y * width + x := by
    rw [Nat.mul_comm (y * width + x) channels, Nat.mul_add_div hch,
      Nat.div_eq_of_lt hc, Nat.add_zero]
  have hb1 : y * width + x + 1 ≤ height * width := by
    calc y * width + x + 1 ≤ y * width + width := by omega
      _ = (y + 1) * width := by ring
      _ ≤ height * width := Nat.mul_le_mul_right width (Nat.succ_le_of_lt hy)
  refine ⟨?_, ?_, ?_⟩
  · rw [hdiv, Nat.add_comm, Nat.add_mul_mod_self_right, Nat.mod_eq_of_lt hx]
  · rw [hdiv, Nat.add_comm, Nat.add_mul_div_right x y hw, Nat.div_eq_of_lt hx,
      Nat.zero_add]
  · calc (y * width + x) * channels + c
        < (y * width + x) * channels + channels := Nat.add_lt_add_left hc _
      _ = (y * width + x + 1) * channels := by ring
      _ ≤ (height * width) * channels := Nat.mul_le_mul_right channels hb1
      _ = width * height * channels := by ring

/-- Helper: the octave fold of `generatePerlinNoise` written out. -/
theorem perlinValue_eq (msin mcos : ℚ → ℚ) (x y : Nat) :
    perlinValue msin mcos x y =
      msin (x * 0.01) * mcos (y * 0.01) * 1 +
      msin (x * 0.02) * mcos (y * 0.02) * (1 / 2) +
      msin (x * 0.03) * mcos (y * 0.03) * (1 / 3) +
      msin (x * 0.04) * mcos (y * 0.04) * (1 / 4) := by
  unfold perlinValue
  norm_num [List.foldl]

/-- C7: the structured ("perlin") noise buffer is a deterministic
function of its inputs: the sample the loop writes at flat index
`(y * width + x) * channels + c` equals the rounded, clamped, +128
biased value of `(sum over octaves 1..4 of
sin(x * freq) * cos(y * freq) * (1/octave)) * amplitude * 255` with
`freq = octave * 0.01` — an expression independent of the channel c, so
the same value is written to every channel of the pixel — whereas the
gaussian and uniform buffers consume fresh random draws for every flat
position i (entries 2i, 2i+1, resp. i, of the random stream), i.e. are
drawn independently per channel-sample. -/
theorem structured_noise_broadcast_random_per_sample
    (msin mcos msqrt mlog mcosg : ℚ → ℚ) (pi : ℚ) (randg randu : Nat → ℚ)
    (width height channels : Nat) (amplitude : ℚ) (x y c i : Nat)
    (hx : x < width) (hy : y < height) (hc : c < channels)
    (hi : i < width * height * channels) :
    sampleAt (generatePerlinNoise msin mcos width height channels amplitude)
        ((y * width + x) * channels + c) =
      biasedSample
        ((msin (x * 0.01) * mcos (y * 0.01) * 1 +
          msin (x * 0.02) * mcos (y * 0.02) * (1 / 2) +
          msin (x * 0.03) * mcos (y * 0.03) * (1 / 3) +
          msin (x * 0.04) * mcos (y * 0.04) * (1 / 4)) * amplitude * 255) ∧
    sampleAt (generateGaussianNoise msqrt mlog mcosg pi randg width height
        channels amplitude) i =
      biasedSample
        (msqrt (-2 * mlog (randg (2 * i))) * mcosg (2 * pi * randg (2 * i + 1)) *
          amplitude * 255) ∧
    sampleAt (generateUniformNoise randu width height channels amplitude) i =
      biasedSample ((randu i - 0.5) * 2 * amplitude * 255) := by
  obtain ⟨hmod, hdiv, hlt⟩ := pixel_index_inv width height channels x y c hx hy hc
  refine ⟨?_, ?_, ?_⟩
  · unfold generatePerlinNoise
    rw [sampleAt_ofFn _ _ _ hlt]
    dsimp only
    rw [hmod, hdiv, perlinValue_eq]
  · unfold generateGaussianNoise
    rw [sampleAt_ofFn _ _ _ hi]
    unfold boxMuller
    rfl
  · unfold generateUniformNoise
    rw [sampleAt_ofFn _ _ _ hi]

/-- Witness for C7 on a 2 by 2, 3-channel buffer at pixel (1, 1),
channel 2, flat position 5, with concrete stand-ins for the
transcendental functions and the random stream. -/
theorem structured_noise_broadcast_random_per_sample_witness :
    (1 < 2 ∧ 1 < 2 ∧ 2 < 3 ∧ 5 < 2 * 2 * 3) ∧
    (sampleAt (generatePerlinNoise (fun q => q) (fun q => 1 - q) 2 2 3 1)
        ((1 * 2 + 1) * 3 + 2) =
      biasedSample
        ((((1 : Nat) : ℚ) * 0.01 * (1 - ((1 : Nat) : ℚ) * 0.01) * 1 +
          ((1 : Nat) : ℚ) * 0.02 * (1 - ((1 : Nat) : ℚ) * 0.02) * (1 / 2) +
          ((1 : Nat) : ℚ) * 0.03 * (1 - ((1 : Nat) : ℚ) * 0.03) * (1 / 3) +
          ((1 : Nat) : ℚ) * 0.04 * (1 - ((1 : Nat) : ℚ) * 0.04) * (1 / 4)) *
          1 * 255) ∧
     sampleAt (generateGaussianNoise (fun q => q) (fun q => q) (fun q => 1 - q)
        3 (fun n => (n : ℚ)) 2 2 3 1) 5 =
      biasedSample ((-2 * ((2 * 5 : Nat) : ℚ)) *
        (1 - 2 * 3 * ((2 * 5 + 1 : Nat) : ℚ)) * 1 * 255) ∧
     sampleAt (generateUniformNoise (fun n => (n : ℚ)) 2 2 3 1) 5 =
      biasedSample ((((5 : Nat) : ℚ) - 0.5) * 2 * 1 * 255)) :=
  ⟨⟨by norm_num, by norm_num, by norm_num, by norm_num⟩,
    structured_noise_broadcast_random_per_sample (fun q => q) (fun q => 1 - q)
      (fun q => q) (fun q => q) (fun q => 1 - q) 3 (fun n => (n : ℚ))
      (fun n => (n : ℚ)) 2 2 3 1 1 1 2 5 (by norm_num) (by norm_num)
      (by norm_num) (by norm_num)⟩
